import Mathlib

/-!
Shallow embedding of `src/include/utility/smart_pointer.h` (namespace
`utility`, class `SmartPointer<Ty, DTy>`).

Modelling choices:
* A raw pointer value (`pointer_type`) is `Option Nat`: `none` is
  `nullptr`, `some a` is a non-null address.
* The deleter object (`m_deleter`) is modelled by an opaque identity
  `Nat`; invoking it is recorded as an event rather than executed.
* Every mutating member function returns, besides the updated state(s),
  a `List Event` trace listing, in program order, the writes to
  `m_pointer` (`Event.store`) and the invocations of the deletion
  policy (`Event.destroy`).  The order of the events inside the list is
  exactly the order of the corresponding statements in the C++ source.
-/

namespace SmartPtr

/-- A raw pointer value: `none` models `nullptr`. -/
abbrev Handle := Option Nat

/-- Opaque identity of a deleter object (`DTy` instance). -/
abbrev Deleter := Nat

/-- The deleter identity produced by default construction of `DTy`
(`std::default_delete<Ty>` in the default case). -/
def defaultDeleter : Deleter := 0

/-- The data members of `utility::SmartPointer`:
`pointer_type m_pointer = nullptr; deleter_type m_deleter;`. -/
structure SmartPointer where
  m_pointer : Handle
  m_deleter : Deleter
deriving DecidableEq, Repr

/-- One observable primitive step of a member function:
a write to `m_pointer`, or an invocation of a deletion policy on a
non-null handle. -/
inductive Event where
  | store (h : Handle)
  | destroy (d : Deleter) (h : Nat)
deriving DecidableEq, Repr

/-- The destroy events of a trace, i.e. the deletion-policy invocations. -/
def destroys (ev : List Event) : List (Deleter × Nat) :=
  ev.filterMap fun e =>
    match e with
    | Event.store _ => none
    | Event.destroy d h => some (d, h)

/-- How many times a deletion policy is invoked on handle `h` in a trace. -/
def destroyCount (ev : List Event) (h : Nat) : Nat :=
  (destroys ev).countP fun p => p.2 = h

/-- `precedes ev e1 e2` holds when some occurrence of `e1` appears
strictly before some occurrence of `e2` in the trace `ev`. -/
def precedes : List Event → Event → Event → Bool
  | [], _, _ => false
  | e :: rest, e1, e2 =>
      (decide (e = e1) && rest.contains e2) || precedes rest e1 e2

/-- `SmartPointer() = default` with `m_pointer = nullptr` and a
default-constructed deleter. -/
def mkDefault : SmartPointer :=
  { m_pointer := none, m_deleter := defaultDeleter }

/-- `SmartPointer(pointer_type pointer)`: adopts `pointer`,
default-constructs the deleter. -/
def mkFromPointer (pointer : Handle) : SmartPointer :=
  { m_pointer := pointer, m_deleter := defaultDeleter }

/-- `SmartPointer(pointer_type pointer, const deleter_type& deleter)`. -/
def mkFromPointerDeleter (pointer : Handle) (deleter : Deleter) : SmartPointer :=
  { m_pointer := pointer, m_deleter := deleter }

/-- `get()`: returns `m_pointer`. -/
def get (a : SmartPointer) : Handle := a.m_pointer

/-- `deleter()`: returns `m_deleter`. -/
def deleter (a : SmartPointer) : Deleter := a.m_deleter

/-- `empty()`: `m_pointer == nullptr`. -/
def empty (a : SmartPointer) : Bool := a.m_pointer = none

/-- `operator bool()`: `m_pointer != nullptr`. -/
def toBool (a : SmartPointer) : Bool := a.m_pointer ≠ none

/-- `release()`: `return std::exchange(m_pointer, nullptr);` — yields the
old handle, the updated owner, and the trace (one store, no destroy). -/
def release (a : SmartPointer) : Handle × SmartPointer × List Event :=
  (a.m_pointer, { a with m_pointer := none }, [Event.store none])

/-- `assign(ptr)`:
`pointer_type old = std::exchange(m_pointer, ptr); if (old) m_deleter(old);`
The store to `m_pointer` happens first (the exchange), the deletion
policy is invoked on the old handle afterwards, only when it was
non-null.  Both overloads (`pointer_type&` and `pointer_type&&`) perform
these same steps. -/
def assign (a : SmartPointer) (ptr : Handle) : SmartPointer × List Event :=
  match a.m_pointer with
  | some h => ({ a with m_pointer := ptr }, [Event.store ptr, Event.destroy a.m_deleter h])
  | none => ({ a with m_pointer := ptr }, [Event.store ptr])

/-- `~SmartPointer()`: `if (m_pointer) m_deleter(m_pointer);`. -/
def dtor (a : SmartPointer) : List Event :=
  match a.m_pointer with
  | some h => [Event.destroy a.m_deleter h]
  | none => []

/-- Move constructor
`SmartPointer(SmartPointer&& right) : m_pointer(std::move(right.release())), m_deleter(std::move(right.deleter()))`:
returns the new owner, the source after the move, and the trace. -/
def moveCtor (right : SmartPointer) : SmartPointer × SmartPointer × List Event :=
  let r := release right
  ({ m_pointer := r.1, m_deleter := right.m_deleter }, r.2.1, r.2.2)

/-- `operator=(SmartPointer&& right)`:
`assign(right.release()); m_deleter = std::forward<deleter_type>(right.m_deleter); return *this;`
for two distinct objects `this` and `right`.  Returns the updated
destination, the updated source, and the trace. -/
def opAssignMove (a right : SmartPointer) : SmartPointer × SmartPointer × List Event :=
  let r := release right
  let s := assign a r.1
  ({ s.1 with m_deleter := right.m_deleter }, r.2.1, r.2.2 ++ s.2)

/-- `operator=(SmartPointer& right)`: same body as the move overload —
`assign(right.release()); m_deleter = std::forward<deleter_type>(right.m_deleter);`. -/
def opAssignLvalue (a right : SmartPointer) : SmartPointer × SmartPointer × List Event :=
  opAssignMove a right

/-- `operator=(pointer_type right)`: `assign(right); return *this;`. -/
def opAssignRaw (a : SmartPointer) (right : Handle) : SmartPointer × List Event :=
  assign a right

/-- `a = std::move(a)` on a single object `a` (aliasing case of
`operator=(SmartPointer&&)`): the argument `right.release()` is
evaluated first — it reads `m_pointer` and nulls the member — then
`assign` runs on the already-nulled object with the released handle,
then `m_deleter` is self-assigned (no change). -/
def selfMoveAssign (a : SmartPointer) : SmartPointer × List Event :=
  let r := release a
  let s := assign r.2.1 r.1
  (s.1, r.2.2 ++ s.2)

/-- `swap(SmartPointer& second)`: `std::swap(m_pointer, second.m_pointer);`
— only the handles are exchanged, the deleters are untouched and no
deletion policy is invoked. -/
def swap (a b : SmartPointer) : SmartPointer × SmartPointer × List Event :=
  ({ a with m_pointer := b.m_pointer }, { b with m_pointer := a.m_pointer }, [])

/-- `operator SmartPointer<P>() const`:
`return SmartPointer<P>(m_pointer);` — a `const` member: it builds a
second owner from the same handle with a default-constructed `P`
deleter and leaves the source unchanged.  Returns
(new owner, source after the conversion). -/
def convertTo (a : SmartPointer) : SmartPointer × SmartPointer :=
  ({ m_pointer := a.m_pointer, m_deleter := defaultDeleter }, a)

/-- The value stored at a freshly allocated address: a record of the
constructor arguments `new value_type(std::forward<Args>(args)...)`
received. -/
structure Value where
  args : List Nat
deriving DecidableEq, Repr

/-- `create(args...)`:
`return SmartPointer<value_type>(new value_type(std::forward<Args>(args)...));`
`alloc` models the allocator: `some addr` is a fresh address, `none` is
an allocation failure (`new` throws `std::bad_alloc`).  On failure the
exception propagates — there is no try/catch — and no owner is
constructed; on success the returned owner wraps the fresh address with
the default deleter, and the heap cell holds a value constructed from
exactly `args`. -/
def create (alloc : Option Nat) (args : List Nat) :
    Except Unit (SmartPointer × Nat × Value) :=
  match alloc with
  | none => Except.error ()
  | some addr =>
      Except.ok ({ m_pointer := some addr, m_deleter := defaultDeleter }, addr, ⟨args⟩)

end SmartPtr

namespace SmartPtr

/-- Claim C1 counterexample: on the owner holding handle 1 with deleter 0,
`assign (some 2)` does NOT invoke the deletion policy on handle 1 before
the new handle becomes observable — the trace is
`[store (some 2), destroy 0 1]`, so the destroy never precedes the store,
even though the policy is invoked exactly once. -/
theorem assign_destroy_before_adopt_false :
    precedes (assign ⟨some 1, 0⟩ (some 2)).2 (Event.destroy 0 1) (Event.store (some 2)) = false ∧
    (assign ⟨some 1, 0⟩ (some 2)).2 = [Event.store (some 2), Event.destroy 0 1] ∧
    destroyCount (assign ⟨some 1, 0⟩ (some 2)).2 1 = 1 := by
  decide

/-- Claim C1 (amended): for an owner holding non-null `h1`,
`assign ptr` stores the new handle and invokes the deletion policy on
`h1` exactly once, but in program order the store of the new handle (the
`std::exchange`) precedes the deletion-policy invocation: the ordering
is adopt-before-destroy, not destroy-before-adopt. -/
theorem assign_adopts_then_destroys (a : SmartPointer) (h1 : Nat) (ptr : Handle)
    (hp : a.m_pointer = some h1) :
    (assign a ptr).1.m_pointer = ptr ∧
    destroyCount (assign a ptr).2 h1 = 1 ∧
    (assign a ptr).2 = [Event.store ptr, Event.destroy a.m_deleter h1] ∧
    precedes (assign a ptr).2 (Event.store ptr) (Event.destroy a.m_deleter h1) = true := by
  simp [assign, hp, destroyCount, destroys, precedes, List.contains]

/-- Witness for the amended claim C1 at the concrete owner
`⟨some 1, 0⟩` and new handle `some 2`. -/
theorem assign_adopts_then_destroys_witness :
    (SmartPointer.mk (some 1) 0).m_pointer = some 1 ∧
    ((assign ⟨some 1, 0⟩ (some 2)).1.m_pointer = some 2 ∧
     destroyCount (assign ⟨some 1, 0⟩ (some 2)).2 1 = 1 ∧
     (assign ⟨some 1, 0⟩ (some 2)).2 = [Event.store (some 2), Event.destroy 0 1] ∧
     precedes (assign ⟨some 1, 0⟩ (some 2)).2 (Event.store (some 2)) (Event.destroy 0 1) = true) :=
  ⟨rfl, assign_adopts_then_destroys ⟨some 1, 0⟩ 1 (some 2) rfl⟩

/-- Claim C2: the type-changing conversion operator is `const` and does
not null the source: converting the owner holding handle 1 produces a
second owner of the very same handle while the source still holds it,
and destroying both owners invokes a deletion policy on handle 1 twice
— the conversion is NOT ownership-consuming and violates I1, exactly
the anti-pattern the design notes flag. -/
theorem conversion_not_ownership_consuming :
    (convertTo ⟨some 1, 0⟩).2.m_pointer = some 1 ∧
    (convertTo ⟨some 1, 0⟩).1.m_pointer = some 1 ∧
    empty (convertTo ⟨some 1, 0⟩).2 = false ∧
    destroyCount (dtor (convertTo ⟨some 1, 0⟩).1 ++ dtor (convertTo ⟨some 1, 0⟩).2) 1 = 2 := by
  decide

/-- Claim C3: destroying an owner of a non-null handle `h` invokes its
deletion policy exactly once, on `h`; destroying an empty owner — null
handle, or a handle previously released or moved out — invokes the
policy zero times. -/
theorem dtor_exactly_once (a : SmartPointer) :
    (∀ h, a.m_pointer = some h →
        dtor a = [Event.destroy a.m_deleter h] ∧ destroyCount (dtor a) h = 1) ∧
    (a.m_pointer = none → dtor a = []) ∧
    dtor (release a).2.1 = [] ∧
    dtor (moveCtor a).2.1 = [] := by
  refine ⟨fun h hp => ?_, fun hp => ?_, ?_, ?_⟩ <;>
    simp_all [dtor, release, moveCtor, destroyCount, destroys]

/-- Witness for claim C3 at the owner `⟨some 5, 7⟩`. -/
theorem dtor_exactly_once_witness :
    ((∀ h, (SmartPointer.mk (some 5) 7).m_pointer = some h →
        dtor ⟨some 5, 7⟩ = [Event.destroy 7 h] ∧ destroyCount (dtor ⟨some 5, 7⟩) h = 1) ∧
     ((SmartPointer.mk (some 5) 7).m_pointer = none → dtor ⟨some 5, 7⟩ = []) ∧
     dtor (release ⟨some 5, 7⟩).2.1 = [] ∧
     dtor (moveCtor ⟨some 5, 7⟩).2.1 = []) :=
  dtor_exactly_once ⟨some 5, 7⟩

/-- Claim C4: `release` returns the handle the owner held before the
call, afterwards the owner is empty, and no deletion policy is invoked
by the release itself. -/
theorem release_spec (a : SmartPointer) :
    (release a).1 = a.m_pointer ∧
    empty (release a).2.1 = true ∧
    destroys (release a).2.2 = [] := by
  simp [release, empty, destroys]

/-- Claim C5: move construction transfers both the handle and the
deleter, leaves the source empty, and invokes no deletion policy. -/
theorem move_ctor_spec (a : SmartPointer) :
    get (moveCtor a).1 = a.m_pointer ∧
    (moveCtor a).1.m_deleter = a.m_deleter ∧
    empty (moveCtor a).2.1 = true ∧
    destroys (moveCtor a).2.2 = [] := by
  simp [moveCtor, release, get, empty, destroys]

/-- Claim C6: all three assignment operators route through `assign`:
when the destination held non-null `h0`, the deletion policy is invoked
on `h0` exactly once, the destination ends up holding the handle of the
source, and a source owner is left empty afterwards. -/
theorem assignment_operators_spec (a b : SmartPointer) (h0 : Nat) (ptr : Handle)
    (hp : a.m_pointer = some h0) :
    (destroyCount (opAssignMove a b).2.2 h0 = 1 ∧
     get (opAssignMove a b).1 = b.m_pointer ∧
     empty (opAssignMove a b).2.1 = true) ∧
    (destroyCount (opAssignLvalue a b).2.2 h0 = 1 ∧
     get (opAssignLvalue a b).1 = b.m_pointer ∧
     empty (opAssignLvalue a b).2.1 = true) ∧
    (destroyCount (opAssignRaw a ptr).2 h0 = 1 ∧
     get (opAssignRaw a ptr).1 = ptr) := by
  refine ⟨⟨?_, ?_, ?_⟩, ⟨?_, ?_, ?_⟩, ?_, ?_⟩ <;>
    simp [opAssignMove, opAssignLvalue, opAssignRaw, release, assign, hp,
      get, empty, destroyCount, destroys]

/-- Witness for claim C6 at destination `⟨some 3, 1⟩`, source
`⟨some 4, 2⟩` and raw handle `some 9`. -/
theorem assignment_operators_spec_witness :
    (SmartPointer.mk (some 3) 1).m_pointer = some 3 ∧
    ((destroyCount (opAssignMove ⟨some 3, 1⟩ ⟨some 4, 2⟩).2.2 3 = 1 ∧
      get (opAssignMove ⟨some 3, 1⟩ ⟨some 4, 2⟩).1 = (SmartPointer.mk (some 4) 2).m_pointer ∧
      empty (opAssignMove ⟨some 3, 1⟩ ⟨some 4, 2⟩).2.1 = true) ∧
     (destroyCount (opAssignLvalue ⟨some 3, 1⟩ ⟨some 4, 2⟩).2.2 3 = 1 ∧
      get (opAssignLvalue ⟨some 3, 1⟩ ⟨some 4, 2⟩).1 = (SmartPointer.mk (some 4) 2).m_pointer ∧
      empty (opAssignLvalue ⟨some 3, 1⟩ ⟨some 4, 2⟩).2.1 = true) ∧
     (destroyCount (opAssignRaw ⟨some 3, 1⟩ (some 9)).2 3 = 1 ∧
      get (opAssignRaw ⟨some 3, 1⟩ (some 9)).1 = some 9)) :=
  ⟨rfl, assignment_operators_spec ⟨some 3, 1⟩ ⟨some 4, 2⟩ 3 (some 9) rfl⟩

/-- Claim C7: `swap` exchanges the two handles — afterwards the first
owner holds the old handle of the second and vice versa — and invokes
no deletion policy. -/
theorem swap_spec (a b : SmartPointer) :
    get (swap a b).1 = get b ∧
    get (swap a b).2.1 = get a ∧
    destroys (swap a b).2.2 = [] := by
  simp [swap, get, destroys]

/-- Claim C8: on successful allocation, `create args` yields an owner of
the fresh address whose referenced value was constructed with exactly
`args`, paired with the default deleter; on allocation failure the
failure propagates as an error and no owner is constructed. -/
theorem create_spec (alloc : Option Nat) (args : List Nat) :
    (∀ addr, alloc = some addr →
        create alloc args =
          Except.ok ({ m_pointer := some addr, m_deleter := defaultDeleter }, addr, ⟨args⟩)) ∧
    (alloc = none → create alloc args = Except.error ()) := by
  constructor
  · intro addr hp
    simp [create, hp]
  · intro hp
    simp [create, hp]

/-- Witness for claim C8 at allocation result `some 11` with
arguments `[5, 6]`, and at the failing allocation `none`. -/
theorem create_spec_witness :
    ((11 : Nat) ∈ (some 11 : Option Nat) ∧
     create (some 11) [5, 6] =
       Except.ok ({ m_pointer := some 11, m_deleter := defaultDeleter }, 11, ⟨[5, 6]⟩)) ∧
    ((none : Option Nat) = none ∧ create none [5, 6] = Except.error ()) :=
  ⟨⟨rfl, (create_spec (some 11) [5, 6]).1 11 rfl⟩,
   ⟨rfl, (create_spec none [5, 6]).2 rfl⟩⟩

/-- Claim C9: self-move-assignment is harmless — `a = std::move(a)`
leaves the owner exactly as it was (same handle, same deleter) and
invokes no deletion policy, because the release nulls the member before
`assign` re-adopts the released handle. -/
theorem self_move_assign_harmless (a : SmartPointer) :
    (selfMoveAssign a).1 = a ∧
    destroys (selfMoveAssign a).2 = [] := by
  simp [selfMoveAssign, release, assign, destroys]

/-- Claim C10: `swap` exchanges only the handles; the deleter members of
both owners are left unchanged. -/
theorem swap_preserves_deleters (a b : SmartPointer) :
    deleter (swap a b).1 = deleter a ∧
    deleter (swap a b).2.1 = deleter b := by
  simp [swap, deleter]

end SmartPtr
